import Mathlib

/-!
Verification of the multi-tenant GitHub-webhook scoring bot (`bot.py`).

The embedding models the two database tables as lists of rows, the SQL
statements of `update_score`, `register` and `github_webhook` as pure list
operations, the HMAC-SHA256 library call as a function parameter
(`hmacHex`), and the outbound GitHub issue-metadata HTTP call as a function
parameter (`fetch`, returning `none` for a non-200 response).  Python
exceptions (`KeyError`/`TypeError` on missing payload fields) are the
`crash` result; every normal exit of the Flask handler is `resp code
scores` carrying the resulting scores table.
-/

namespace Bot

/-- One row of the `scores` table: `(repo_id, github_username, points)`. -/
structure ScoreRow where
  repo_id : Nat
  github_username : String
  points : Int
deriving DecidableEq, Repr

/-- One row of the `repositories` table. -/
structure RepoRow where
  id : Nat
  guild_id : Nat
  repo_name : String
  webhook_secret : String
  channel_id : Nat
  admin_user_id : Nat
deriving DecidableEq, Repr

/-- `SELECT points FROM scores WHERE repo_id = %s AND github_username = %s`
followed by `fetchone` (bot.py line 59/60): the first matching row's points. -/
def lookupScore (scores : List ScoreRow) (r : Nat) (u : String) : Option Int :=
  (scores.find? (fun row => row.repo_id == r && row.github_username == u)).map
    (fun row => row.points)

/-- The `SELECT` step of `update_score` (bot.py lines 59-60). -/
def usRead (scores : List ScoreRow) (r : Nat) (u : String) : Option Int :=
  lookupScore scores r u

/-- The write step of `update_score` (bot.py lines 61-65): with a fetched row,
`UPDATE scores SET points = new_points` for the key; otherwise
`INSERT INTO scores VALUES (repo_id, username, points_to_add)`. -/
def usWrite (scores : List ScoreRow) (r : Nat) (u : String)
    (fetched : Option Int) (p : Int) : List ScoreRow :=
  match fetched with
  | some v =>
      scores.map (fun row =>
        if row.repo_id == r && row.github_username == u then
          { row with points := v + p } else row)
  | none => scores ++ [⟨r, u, p⟩]

/-- `update_score(repo_id, username, points_to_add)` (bot.py lines 54-69):
a separate read step followed by a write step (not an atomic
read-modify-write).  The Python function returns `None`; the Lean value is
the resulting `scores` table. -/
def update_score (scores : List ScoreRow) (r : Nat) (u : String)
    (p : Int) : List ScoreRow :=
  usWrite scores r u (usRead scores r u) p

/-- `str.lower()` on a label name (ASCII model), character by character. -/
def pyLower (s : String) : String :=
  ⟨s.data.map Char.toLower⟩

/-- `get_points_from_pr_labels(repo_name, issue_number)` (bot.py lines
71-83).  The outbound HTTP GET is the `fetch` parameter: `none` models a
non-200 response, `some labels` the JSON's label-name list (an absent
`labels` key is `some []`). -/
def get_points_from_pr_labels (fetch : String → Nat → Option (List String))
    (repo_name : String) (issue_number : Nat) : Int :=
  match fetch repo_name issue_number with
  | none => 0
  | some names =>
      if (names.map pyLower).contains "hard" then 20
      else if (names.map pyLower).contains "medium" then 10
      else if (names.map pyLower).contains "easy" then 5
      else 0

/-- The keyword alternatives of the regex on bot.py line 190, in the
pattern's alternation order. -/
def closingKeywords : List String :=
  ["close", "closes", "closed", "fix", "fixes", "fixed",
   "resolve", "resolves", "resolved"]

/-- A character matched by the regex class \s (ASCII range). -/
def isPySpace (c : Char) : Bool :=
  c == ' ' || c == '\t' || c == '\n' || c == '\r' || c == '\x0b' || c == '\x0c'

/-- A character matched by the regex class \d (ASCII range). -/
def isPyDigit (c : Char) : Bool :=
  '0' ≤ c && c ≤ '9'

/-- `int(...)` on the digit group. -/
def digitsToNat (ds : List Char) : Nat :=
  ds.foldl (fun n c => 10 * n + (c.toNat - 48)) 0

/-- One anchored attempt of the regex
`(?:close|closes|closed|fix|fixes|fixed|resolve|resolves|resolved)\s#(\d+)`
with `re.IGNORECASE` at the head of `cs`: the alternatives are tried in
order; a successful one must be followed by one whitespace character, `#`,
and a non-empty maximal digit run, whose value is returned. -/
def matchAt (cs : List Char) : Option Nat :=
  closingKeywords.findSome? (fun k =>
    let kl := k.toList
    if kl.isPrefixOf (cs.map Char.toLower) then
      match cs.drop kl.length with
      | c :: '#' :: rest =>
          if isPySpace c then
            let ds := rest.takeWhile isPyDigit
            if ds.isEmpty then none else some (digitsToNat ds)
          else none
      | _ => none
    else none)

/-- `re.search` of the pattern on bot.py line 190: the leftmost position at
which `matchAt` succeeds, with `int(match.group(1))` applied. -/
def findIssueNumber : List Char → Option Nat
  | [] => none
  | c :: rest =>
      match matchAt (c :: rest) with
      | some n => some n
      | none => findIssueNumber rest

/-- Modelled from the claim's words, for comparison with `findIssueNumber`:
a closing keyword IMMEDIATELY followed by `#<digits>` (no intervening
whitespace). -/
def matchAtClaim (cs : List Char) : Option Nat :=
  closingKeywords.findSome? (fun k =>
    let kl := k.toList
    if kl.isPrefixOf (cs.map Char.toLower) then
      match cs.drop kl.length with
      | '#' :: rest =>
          let ds := rest.takeWhile isPyDigit
          if ds.isEmpty then none else some (digitsToNat ds)
      | _ => none
    else none)

/-- Leftmost search for `matchAtClaim` (claim-side counterpart of
`findIssueNumber`). -/
def findIssueNumberClaim : List Char → Option Nat
  | [] => none
  | c :: rest =>
      match matchAtClaim (c :: rest) with
      | some n => some n
      | none => findIssueNumberClaim rest

/-- The parsed fields of `data['pull_request']`; `none` models an absent
key (reading it raises, except `body`, read with `.get`). -/
structure PRObj where
  merged : Option Bool
  user_login : Option String
  number : Option Nat
  title : Option String
  html_url : Option String
  body : Option String
deriving DecidableEq, Repr

/-- The parsed webhook JSON body: `action` is read with `.get`,
`pull_request` with indexing. -/
structure Payload where
  action : Option String
  pull_request : Option PRObj
deriving DecidableEq, Repr

/-- Outcome of one Flask request: a response code together with the scores
table after the request, or an uncaught Python exception. -/
inductive WebhookResult where
  | resp (code : Nat) (scores : List ScoreRow)
  | crash
deriving DecidableEq, Repr

/-- `str.startswith` on the signature header. -/
def pyStartsWith (s p : String) : Bool :=
  p.toList.isPrefixOf s.toList

/-- `SELECT webhook_secret, channel_id, repo_name FROM repositories WHERE
id = %s` with `fetchone` (bot.py line 161). -/
def lookupRepoById (repos : List RepoRow) (i : Nat) :
    Option (String × Nat × String) :=
  (repos.find? (fun r => r.id == i)).map
    (fun r => (r.webhook_secret, r.channel_id, r.repo_name))

/-- bot.py lines 181-206: payload processing after the signature gate.
The Discord notification send (lines 200-205) has no effect on the scores
table and is dropped. -/
def processPayload (payload : Payload) (repo_id : Nat) (repo_name : String)
    (scores : List ScoreRow)
    (fetch : String → Nat → Option (List String)) : WebhookResult :=
  if payload.action = some "closed" then
    match payload.pull_request with
    | none => .crash
    | some pr =>
      match pr.merged with
      | none => .crash
      | some m =>
        if m then
          match pr.user_login with
          | none => .crash
          | some username =>
            match pr.number with
            | none => .crash
            | some _pr_number =>
              match pr.title with
              | none => .crash
              | some _pr_title =>
                match pr.html_url with
                | none => .crash
                | some _pr_url =>
                  match findIssueNumber (pr.body.getD "").toList with
                  | none => .resp 204 scores
                  | some issue_number =>
                    if get_points_from_pr_labels fetch repo_name issue_number > 0 then
                      .resp 204 (update_score scores repo_id username
                        (get_points_from_pr_labels fetch repo_name issue_number))
                    else .resp 204 scores
        else .resp 204 scores
  else .resp 204 scores

/-- `github_webhook(repo_id)` (bot.py lines 156-206).  `hmacHex secret
body` is `hmac.new(secret, body, sha256).hexdigest()`;
`hmac.compare_digest` is value equality of the two header strings. -/
def github_webhook (hmacHex : String → String → String)
    (repos : List RepoRow) (scores : List ScoreRow) (repo_id : Nat)
    (signature : Option String) (rawBody : String) (payload : Payload)
    (fetch : String → Nat → Option (List String)) : WebhookResult :=
  match lookupRepoById repos repo_id with
  | none => .resp 404 scores
  | some (repo_secret, _repo_channel_id, repo_name) =>
    match signature with
    | none => .resp 400 scores
    | some sig =>
      if pyStartsWith sig "sha256=" then
        let expected := "sha256=" ++ hmacHex repo_secret rawBody
        if expected = sig then
          processPayload payload repo_id repo_name scores fetch
        else .resp 403 scores
      else .resp 400 scores

/-- The `/register` upsert (bot.py lines 98-108): `INSERT ... ON CONFLICT
(guild_id) DO UPDATE SET repo_name, webhook_secret, channel_id,
admin_user_id ... RETURNING id`.  The freshly generated
`secrets.token_hex(16)` is the `secret` parameter; the serial id the
database would assign to a new row is `freshId`.  Returns the new table
and the returned id. -/
def registerUpsert (repos : List RepoRow) (g : Nat) (rn : String)
    (secret : String) (ch : Nat) (ad : Nat) (freshId : Nat) :
    List RepoRow × Nat :=
  match repos.find? (fun r => r.guild_id == g) with
  | some r =>
      (repos.map (fun x =>
        if x.guild_id == g then
          { x with repo_name := rn, webhook_secret := secret,
                   channel_id := ch, admin_user_id := ad }
        else x), r.id)
  | none => (repos ++ [⟨freshId, g, rn, secret, ch, ad⟩], freshId)

end Bot

namespace Bot

/-! ### Helper lemmas about the scores table -/

theorem find?_append_of_none {α : Type} (p : α → Bool) (l₁ l₂ : List α)
    (h : l₁.find? p = none) : (l₁ ++ l₂).find? p = l₂.find? p := by
  rw [List.find?_append, h]
  simp

theorem lookupScore_append_self (scores : List ScoreRow) (r : Nat) (u : String)
    (p : Int) (h : lookupScore scores r u = none) :
    lookupScore (scores ++ [⟨r, u, p⟩]) r u = some p := by
  unfold lookupScore at h ⊢
  cases hf : scores.find? (fun row => row.repo_id == r && row.github_username == u) with
  | some row => rw [hf] at h; cases h
  | none =>
      rw [find?_append_of_none _ _ _ hf]
      simp [List.find?]

theorem update_score_of_none (scores : List ScoreRow) (r : Nat) (u : String)
    (p : Int) (h : lookupScore scores r u = none) :
    update_score scores r u p = scores ++ [⟨r, u, p⟩] := by
  unfold update_score usRead usWrite
  rw [h]

theorem update_score_of_some (scores : List ScoreRow) (r : Nat) (u : String)
    (p v : Int) (h : lookupScore scores r u = some v) :
    update_score scores r u p =
      scores.map (fun row =>
        if row.repo_id == r && row.github_username == u then
          { row with points := v + p } else row) := by
  unfold update_score usRead usWrite
  rw [h]

end Bot

namespace Bot

theorem find?_map_of_pred {α : Type} (p : α → Bool) (f : α → α)
    (hf : ∀ a, p (f a) = p a) (l : List α) :
    (l.map f).find? p = (l.find? p).map f := by
  induction l with
  | nil => simp
  | cons a as ih =>
      simp only [List.map_cons]
      cases hp : p a with
      | true =>
          rw [List.find?_cons_of_pos _ (by rw [hf]; exact hp),
              List.find?_cons_of_pos _ hp]
          simp
      | false =>
          rw [List.find?_cons_of_neg _ (by rw [hf]; simp [hp]),
              List.find?_cons_of_neg _ (by simp [hp])]
          exact ih

theorem lookupScore_update_self (scores : List ScoreRow) (r : Nat) (u : String)
    (p v : Int) (h : lookupScore scores r u = some v) :
    lookupScore (update_score scores r u p) r u = some (v + p) := by
  rw [update_score_of_some _ _ _ _ _ h]
  unfold lookupScore at h ⊢
  rw [find?_map_of_pred _ _
    (fun a => by by_cases hk : a.repo_id = r ∧ a.github_username = u <;> simp [hk])]
  cases hf : scores.find? (fun row => row.repo_id == r && row.github_username == u) with
  | none => rw [hf] at h; cases h
  | some row₀ =>
      rw [hf] at h
      have hk := List.find?_some hf
      simp only [Option.map_some, Option.map] at h ⊢
      have hv : row₀.points = v := by
        injection h
      simp [hk, hv]

theorem lookupScore_update_other (scores : List ScoreRow) (r : Nat) (u : String)
    (p : Int) (r' : Nat) (u' : String) (hne : ¬(r' = r ∧ u' = u)) :
    lookupScore (update_score scores r u p) r' u' = lookupScore scores r' u' := by
  unfold update_score usRead usWrite
  cases hl : lookupScore scores r u with
  | none =>
      unfold lookupScore
      rw [List.find?_append]
      have hsingle : ([(⟨r, u, p⟩ : ScoreRow)].find?
          (fun row => row.repo_id == r' && row.github_username == u')) = none := by
        simp only [List.find?]
        have : ((⟨r, u, p⟩ : ScoreRow).repo_id == r' &&
            (⟨r, u, p⟩ : ScoreRow).github_username == u') = false := by
          by_cases h1 : r = r'
          · have h2 : ¬u = u' := fun h2 => hne ⟨h1.symm, h2.symm⟩
            simp [h2]
          · simp [h1]
        rw [this]
      rw [hsingle]
      simp
  | some v =>
      unfold lookupScore
      rw [find?_map_of_pred _ _
        (fun a => by by_cases hk : a.repo_id = r ∧ a.github_username = u <;> simp [hk])]
      cases hf : scores.find? (fun row => row.repo_id == r' && row.github_username == u') with
      | none => simp
      | some row₁ =>
          have hk := List.find?_some hf
          simp only [Bool.and_eq_true, beq_iff_eq] at hk
          have hne3 : ¬(row₁.repo_id = r ∧ row₁.github_username = u) := by
            rintro ⟨h1, h2⟩
            exact hne ⟨hk.1.symm.trans h1, hk.2.symm.trans h2⟩
          simp [hne3]

theorem lookupScore_mem (scores : List ScoreRow) (r : Nat) (u : String) (v : Int)
    (h : lookupScore scores r u = some v) : ∃ row ∈ scores, row.points = v := by
  unfold lookupScore at h
  cases hf : scores.find? (fun row => row.repo_id == r && row.github_username == u) with
  | none => rw [hf] at h; cases h
  | some row₀ =>
      rw [hf] at h
      refine ⟨row₀, List.mem_of_find?_eq_some hf, ?_⟩
      injection h

theorem mem_update_score (scores : List ScoreRow) (r : Nat) (u : String)
    (p : Int) (row' : ScoreRow) (h : row' ∈ update_score scores r u p) :
    row' ∈ scores ∨ row' = ⟨r, u, p⟩ ∨
      ∃ row ∈ scores, ∃ v, lookupScore scores r u = some v ∧
        row' = { row with points := v + p } := by
  unfold update_score usRead usWrite at h
  cases hl : lookupScore scores r u with
  | none =>
      rw [hl] at h
      rcases List.mem_append.mp h with h1 | h1
      · exact Or.inl h1
      · simp at h1
        exact Or.inr (Or.inl h1)
  | some v =>
      rw [hl] at h
      rcases List.mem_map.mp h with ⟨row, hrow, heq⟩
      by_cases hk : (row.repo_id == r && row.github_username == u) = true
      · rw [if_pos hk] at heq
        exact Or.inr (Or.inr ⟨row, hrow, v, rfl, heq.symm⟩)
      · rw [if_neg hk] at heq
        exact Or.inl (heq ▸ hrow)

theorem get_points_range (fetch : String → Nat → Option (List String))
    (rn : String) (n : Nat) :
    get_points_from_pr_labels fetch rn n = 0 ∨
    get_points_from_pr_labels fetch rn n = 5 ∨
    get_points_from_pr_labels fetch rn n = 10 ∨
    get_points_from_pr_labels fetch rn n = 20 := by
  cases hfetch : fetch rn n with
  | none =>
      have h0 : get_points_from_pr_labels fetch rn n = 0 := by
        unfold get_points_from_pr_labels
        rw [hfetch]
      exact Or.inl h0
  | some names =>
      have hred : get_points_from_pr_labels fetch rn n =
          (if (names.map pyLower).contains "hard" = true then (20 : Int)
           else if (names.map pyLower).contains "medium" = true then (10 : Int)
           else if (names.map pyLower).contains "easy" = true then (5 : Int)
           else 0) := by
        unfold get_points_from_pr_labels
        rw [hfetch]
      rw [hred]
      by_cases h1 : ((names.map pyLower).contains "hard" = true)
      · rw [if_pos h1]
        exact Or.inr (Or.inr (Or.inr rfl))
      · rw [if_neg h1]
        by_cases h2 : ((names.map pyLower).contains "medium" = true)
        · rw [if_pos h2]
          exact Or.inr (Or.inr (Or.inl rfl))
        · rw [if_neg h2]
          by_cases h3 : ((names.map pyLower).contains "easy" = true)
          · rw [if_pos h3]
            exact Or.inr (Or.inl rfl)
          · rw [if_neg h3]
            exact Or.inl rfl

end Bot

namespace Bot

theorem processPayload_resp (payload : Payload) (rid : Nat) (rn : String)
    (scores : List ScoreRow) (fetch : String → Nat → Option (List String))
    (c : Nat) (scores' : List ScoreRow)
    (h : processPayload payload rid rn scores fetch = .resp c scores') :
    c = 204 ∧ (scores' = scores ∨
      ∃ pr u n, payload.action = some "closed" ∧
        payload.pull_request = some pr ∧ pr.merged = some true ∧
        pr.user_login = some u ∧
        findIssueNumber (pr.body.getD "").toList = some n ∧
        0 < get_points_from_pr_labels fetch rn n ∧
        scores' = update_score scores rid u
          (get_points_from_pr_labels fetch rn n)) := by
  rcases payload with ⟨act, opr⟩
  by_cases hact : act = some "closed"
  · subst hact
    cases opr with
    | none => simp [processPayload] at h
    | some pr =>
      rcases pr with ⟨om, ou, onum, oti, our, ob⟩
      cases om with
      | none => simp [processPayload] at h
      | some m =>
        cases m with
        | false =>
            simp [processPayload] at h
            exact ⟨h.1.symm, Or.inl h.2.symm⟩
        | true =>
          cases ou with
          | none => simp [processPayload] at h
          | some username =>
            cases onum with
            | none => simp [processPayload] at h
            | some prn =>
              cases oti with
              | none => simp [processPayload] at h
              | some ti =>
                cases our with
                | none => simp [processPayload] at h
                | some url =>
                  cases hfi : findIssueNumber ((ob.getD "").data) with
                  | none =>
                      simp [processPayload, hfi] at h
                      exact ⟨h.1.symm, Or.inl h.2.symm⟩
                  | some n =>
                      by_cases hp : get_points_from_pr_labels fetch rn n > 0
                      · simp [processPayload, hfi, hp] at h
                        refine ⟨h.1.symm, Or.inr ?_⟩
                        exact ⟨⟨some true, some username, some prn, some ti,
                          some url, ob⟩, username, n, rfl, rfl, rfl, rfl, hfi,
                          hp, h.2.symm⟩
                      · simp [processPayload, hfi, hp] at h
                        exact ⟨h.1.symm, Or.inl h.2.symm⟩
  · simp [processPayload, hact] at h
    exact ⟨h.1.symm, Or.inl h.2.symm⟩

theorem github_webhook_resp (hmacHex : String → String → String)
    (repos : List RepoRow) (scores : List ScoreRow) (rid : Nat)
    (sig : Option String) (body : String) (payload : Payload)
    (fetch : String → Nat → Option (List String)) (c : Nat)
    (scores' : List ScoreRow)
    (h : github_webhook hmacHex repos scores rid sig body payload fetch =
      .resp c scores') :
    scores' = scores ∨
      ∃ secret ch rn, lookupRepoById repos rid = some (secret, ch, rn) ∧
        processPayload payload rid rn scores fetch = .resp c scores' := by
  unfold github_webhook at h
  cases hl : lookupRepoById repos rid with
  | none =>
      rw [hl] at h
      simp at h
      exact Or.inl h.2.symm
  | some t =>
      rcases t with ⟨secret, ch, rn⟩
      rw [hl] at h
      cases sig with
      | none =>
          simp at h
          exact Or.inl h.2.symm
      | some s =>
          simp only at h
          by_cases hsw : pyStartsWith s "sha256=" = true
          · rw [if_pos hsw] at h
            by_cases heq : ("sha256=" ++ hmacHex secret body) = s
            · rw [if_pos heq] at h
              exact Or.inr ⟨secret, ch, rn, rfl, h⟩
            · rw [if_neg heq] at h
              simp at h
              exact Or.inl h.2.symm
          · rw [if_neg hsw] at h
            simp at h
            exact Or.inl h.2.symm

end Bot

namespace Bot

/-- C1: `update_score` is a separate read step (`usRead`, the SELECT on
bot.py lines 59-60) followed by a write step (`usWrite`, the UPDATE/INSERT
on lines 61-65), not an atomic read-modify-write.  Interleaving two
concurrent awards of 5 and 10 points to the contributor (repo 1, "alice",
stored total 0) as read-read-write-write loses the first award: the final
stored total is 10, not 15 — while both sequential orders give 15. -/
theorem c1_lost_update_interleaving :
    lookupScore
      (usWrite
        (usWrite [⟨1, "alice", 0⟩] 1 "alice"
          (usRead [⟨1, "alice", 0⟩] 1 "alice") 5)
        1 "alice" (usRead [⟨1, "alice", 0⟩] 1 "alice") 10)
      1 "alice" = some 10 ∧
    (10 : Int) ≠ 0 + 5 + 10 ∧
    lookupScore
      (update_score (update_score [⟨1, "alice", 0⟩] 1 "alice" 5) 1 "alice" 10)
      1 "alice" = some 15 ∧
    lookupScore
      (update_score (update_score [⟨1, "alice", 0⟩] 1 "alice" 10) 1 "alice" 5)
      1 "alice" = some 15 := by
  refine ⟨by decide, by decide, by decide, by decide⟩

/-- C4 counterexample: in the body "fixes#42" the keyword `fixes` is
immediately followed by `#42`, so the claim's reading
(`findIssueNumberClaim`) extracts issue 42, but the code's regex
(bot.py line 190) requires one whitespace character between the keyword and
`#`, finds no match, and the handler answers 204 with no event even though
issue 42 is labeled `hard`. -/
theorem c4_counterexample :
    findIssueNumberClaim "fixes#42".toList = some 42 ∧
    findIssueNumber "fixes#42".toList = none ∧
    processPayload
      ⟨some "closed", some ⟨some true, some "alice", some 7, some "t",
        some "u", some "fixes#42"⟩⟩ 1 "o/r" []
      (fun _ _ => some ["hard"]) = .resp 204 [] := by
  refine ⟨by decide, by decide, by decide⟩

/-- C6 counterexample: `update_score` (bot.py lines 54-69) has no
`points <= 0` guard: with points 0 it inserts a row for an absent
contributor, and with points -5 it decreases an existing total from 10 to
5; it also returns nothing (no current total). -/
theorem c6_counterexample :
    update_score [] 1 "alice" 0 = [⟨1, "alice", 0⟩] ∧
    update_score [] 1 "alice" 0 ≠ [] ∧
    update_score [⟨1, "alice", 10⟩] 1 "alice" (-5) = [⟨1, "alice", 5⟩] := by
  refine ⟨by decide, by decide, by decide⟩

/-- C10: on a correctly routed and correctly signed request whose JSON has
`action == "closed"`, the handler (bot.py lines 181-188) raises an uncaught
exception — instead of answering 204 — when the payload lacks
`pull_request` or any of its `merged`, `user.login`, `number`, `title`,
`html_url` fields: payload parsing is not total. -/
theorem c10_missing_fields_crash :
    (github_webhook (fun s b => s ++ b) [⟨1, 10, "o/r", "sec", 5, 7⟩] [] 1
      (some "sha256=secraw") "raw" ⟨some "closed", none⟩
      (fun _ _ => none) = .crash) ∧
    (github_webhook (fun s b => s ++ b) [⟨1, 10, "o/r", "sec", 5, 7⟩] [] 1
      (some "sha256=secraw") "raw"
      ⟨some "closed", some ⟨none, some "a", some 1, some "t", some "u", some "b"⟩⟩
      (fun _ _ => none) = .crash) ∧
    (github_webhook (fun s b => s ++ b) [⟨1, 10, "o/r", "sec", 5, 7⟩] [] 1
      (some "sha256=secraw") "raw"
      ⟨some "closed", some ⟨some true, none, some 1, some "t", some "u", some "b"⟩⟩
      (fun _ _ => none) = .crash) ∧
    (github_webhook (fun s b => s ++ b) [⟨1, 10, "o/r", "sec", 5, 7⟩] [] 1
      (some "sha256=secraw") "raw"
      ⟨some "closed", some ⟨some true, some "a", none, some "t", some "u", some "b"⟩⟩
      (fun _ _ => none) = .crash) ∧
    (github_webhook (fun s b => s ++ b) [⟨1, 10, "o/r", "sec", 5, 7⟩] [] 1
      (some "sha256=secraw") "raw"
      ⟨some "closed", some ⟨some true, some "a", some 1, none, some "u", some "b"⟩⟩
      (fun _ _ => none) = .crash) ∧
    (github_webhook (fun s b => s ++ b) [⟨1, 10, "o/r", "sec", 5, 7⟩] [] 1
      (some "sha256=secraw") "raw"
      ⟨some "closed", some ⟨some true, some "a", some 1, some "t", none, some "b"⟩⟩
      (fun _ _ => none) = .crash) := by
  refine ⟨by decide, by decide, by decide, by decide, by decide, by decide⟩

end Bot

namespace Bot

/-- C2: for every inbound webhook request, an unknown tenant id answers
404; a missing signature header, or one not starting with `sha256=`,
answers 400; a well-formed header whose digest differs from the expected
`sha256=<hmac>` answers 403; and in all three cases the response carries
the scores table unchanged — the pipeline halts before any ledger write
(bot.py lines 156-178). -/
theorem c2_error_paths_halt (hmacHex : String → String → String)
    (repos : List RepoRow) (scores : List ScoreRow) (rid : Nat)
    (sig : Option String) (body : String) (payload : Payload)
    (fetch : String → Nat → Option (List String)) :
    (lookupRepoById repos rid = none →
      github_webhook hmacHex repos scores rid sig body payload fetch =
        .resp 404 scores) ∧
    (∀ secret ch rn, lookupRepoById repos rid = some (secret, ch, rn) →
      sig = none →
      github_webhook hmacHex repos scores rid sig body payload fetch =
        .resp 400 scores) ∧
    (∀ secret ch rn s, lookupRepoById repos rid = some (secret, ch, rn) →
      sig = some s → pyStartsWith s "sha256=" = false →
      github_webhook hmacHex repos scores rid sig body payload fetch =
        .resp 400 scores) ∧
    (∀ secret ch rn s, lookupRepoById repos rid = some (secret, ch, rn) →
      sig = some s → pyStartsWith s "sha256=" = true →
      s ≠ "sha256=" ++ hmacHex secret body →
      github_webhook hmacHex repos scores rid sig body payload fetch =
        .resp 403 scores) := by
  refine ⟨?_, ?_, ?_, ?_⟩
  · intro h
    simp only [github_webhook, h]
  · intro secret ch rn h hs
    simp only [github_webhook, h, hs]
  · intro secret ch rn s h hs hsw
    simp only [github_webhook, h, hs, hsw]
    simp
  · intro secret ch rn s h hs hsw hne
    simp only [github_webhook, h, hs, hsw]
    simp only [if_true]
    rw [if_neg (fun heq => hne heq.symm)]

/-- C2 witness at concrete requests. -/
theorem c2_error_paths_halt_witness :
    github_webhook (fun s b => s ++ b) [⟨1, 10, "o/r", "sec", 5, 7⟩] [] 2
      (some "sha256=x") "raw" ⟨none, none⟩ (fun _ _ => none) =
        .resp 404 [] ∧
    github_webhook (fun s b => s ++ b) [⟨1, 10, "o/r", "sec", 5, 7⟩] [] 1
      none "raw" ⟨none, none⟩ (fun _ _ => none) = .resp 400 [] ∧
    github_webhook (fun s b => s ++ b) [⟨1, 10, "o/r", "sec", 5, 7⟩] [] 1
      (some "bogus") "raw" ⟨none, none⟩ (fun _ _ => none) = .resp 400 [] ∧
    github_webhook (fun s b => s ++ b) [⟨1, 10, "o/r", "sec", 5, 7⟩] [] 1
      (some "sha256=bad") "raw" ⟨none, none⟩ (fun _ _ => none) =
        .resp 403 [] := by
  refine ⟨?_, ?_, ?_, ?_⟩
  · exact (c2_error_paths_halt (fun s b => s ++ b)
      [⟨1, 10, "o/r", "sec", 5, 7⟩] [] 2 (some "sha256=x") "raw" ⟨none, none⟩
      (fun _ _ => none)).1 (by decide)
  · exact (c2_error_paths_halt (fun s b => s ++ b)
      [⟨1, 10, "o/r", "sec", 5, 7⟩] [] 1 none "raw" ⟨none, none⟩
      (fun _ _ => none)).2.1 "sec" 5 "o/r" (by decide) rfl
  · exact (c2_error_paths_halt (fun s b => s ++ b)
      [⟨1, 10, "o/r", "sec", 5, 7⟩] [] 1 (some "bogus") "raw" ⟨none, none⟩
      (fun _ _ => none)).2.2.1 "sec" 5 "o/r" "bogus" (by decide) rfl (by decide)
  · exact (c2_error_paths_halt (fun s b => s ++ b)
      [⟨1, 10, "o/r", "sec", 5, 7⟩] [] 1 (some "sha256=bad") "raw" ⟨none, none⟩
      (fun _ _ => none)).2.2.2 "sec" 5 "o/r" "sha256=bad" (by decide) rfl
      (by decide) (by decide)

/-- C3: extraction (bot.py lines 181-182) lets a payload through only when
`action == "closed"` and `pull_request.merged` is true: a payload whose
pull request carries `merged == false` is answered 204 with the scores
unchanged, whatever the action; and any response that changed the scores
came from a payload with `action == "closed"` and `merged == true`. -/
theorem c3_extract_requires_merged (payload : Payload) (pr : PRObj)
    (rid : Nat) (rn : String) (scores : List ScoreRow)
    (fetch : String → Nat → Option (List String)) :
    (payload.pull_request = some pr → pr.merged = some false →
      processPayload payload rid rn scores fetch = .resp 204 scores) ∧
    (∀ c scores',
      processPayload payload rid rn scores fetch = .resp c scores' →
      scores' ≠ scores →
      payload.action = some "closed" ∧
      ∃ pr2, payload.pull_request = some pr2 ∧ pr2.merged = some true) := by
  constructor
  · intro hpr hm
    rcases payload with ⟨act, opr⟩
    simp only at hpr
    by_cases hact : act = some "closed"
    · simp [processPayload, hact, hpr, hm]
    · simp [processPayload, hact]
  · intro c scores' h hne
    rcases (processPayload_resp payload rid rn scores fetch c scores' h).2 with
      heq | ⟨pr2, u, n, hact, hpr2, hm, _, _, _, heq⟩
    · exact absurd heq hne
    · exact ⟨hact, pr2, hpr2, hm⟩

/-- C3 witness: a closed-but-unmerged payload is answered 204 with the
ledger unchanged. -/
theorem c3_extract_requires_merged_witness :
    processPayload
      ⟨some "closed", some ⟨some false, some "alice", some 1, some "t",
        some "u", some "fixes #4"⟩⟩ 1 "o/r" [⟨1, "bob", 5⟩]
      (fun _ _ => some ["hard"]) = .resp 204 [⟨1, "bob", 5⟩] :=
  (c3_extract_requires_merged
    ⟨some "closed", some ⟨some false, some "alice", some 1, some "t",
      some "u", some "fixes #4"⟩⟩
    ⟨some false, some "alice", some 1, some "t", some "u", some "fixes #4"⟩
    1 "o/r" [⟨1, "bob", 5⟩] (fun _ _ => some ["hard"])).1 rfl rfl

/-- C5: `get_points_from_pr_labels` (bot.py lines 71-83) returns 0 on a
failed collaborator call (non-200 response); otherwise it lowercases the
fetched label names and returns 20 when they include "hard" (whatever else
is present), else 10 for "medium", else 5 for "easy", else 0 — in
particular 0 on an empty label set. -/
theorem c5_label_points (fetch : String → Nat → Option (List String))
    (rn : String) (n : Nat) (names : List String) :
    (fetch rn n = none → get_points_from_pr_labels fetch rn n = 0) ∧
    (fetch rn n = some [] → get_points_from_pr_labels fetch rn n = 0) ∧
    (fetch rn n = some names →
      ((names.map pyLower).contains "hard" = true →
        get_points_from_pr_labels fetch rn n = 20) ∧
      ((names.map pyLower).contains "hard" = false →
        (names.map pyLower).contains "medium" = true →
        get_points_from_pr_labels fetch rn n = 10) ∧
      ((names.map pyLower).contains "hard" = false →
        (names.map pyLower).contains "medium" = false →
        (names.map pyLower).contains "easy" = true →
        get_points_from_pr_labels fetch rn n = 5) ∧
      ((names.map pyLower).contains "hard" = false →
        (names.map pyLower).contains "medium" = false →
        (names.map pyLower).contains "easy" = false →
        get_points_from_pr_labels fetch rn n = 0)) := by
  refine ⟨?_, ?_, ?_⟩
  · intro h
    unfold get_points_from_pr_labels
    rw [h]
  · intro h
    unfold get_points_from_pr_labels
    rw [h]
    decide
  · intro h
    have hred : get_points_from_pr_labels fetch rn n =
        (if (names.map pyLower).contains "hard" = true then (20 : Int)
         else if (names.map pyLower).contains "medium" = true then (10 : Int)
         else if (names.map pyLower).contains "easy" = true then (5 : Int)
         else 0) := by
      unfold get_points_from_pr_labels
      rw [h]
    refine ⟨?_, ?_, ?_, ?_⟩
    · intro h1
      rw [hred, if_pos h1]
    · intro h1 h2
      rw [hred, if_neg (by rw [h1]; exact Bool.false_ne_true), if_pos h2]
    · intro h1 h2 h3
      rw [hred, if_neg (by rw [h1]; exact Bool.false_ne_true), if_neg (by rw [h2]; exact Bool.false_ne_true), if_pos h3]
    · intro h1 h2 h3
      rw [hred, if_neg (by rw [h1]; exact Bool.false_ne_true), if_neg (by rw [h2]; exact Bool.false_ne_true),
        if_neg (by rw [h3]; exact Bool.false_ne_true)]

/-- C5 witness at concrete label sets. -/
theorem c5_label_points_witness :
    get_points_from_pr_labels (fun _ _ => none) "o/r" 1 = 0 ∧
    get_points_from_pr_labels (fun _ _ => some []) "o/r" 1 = 0 ∧
    get_points_from_pr_labels (fun _ _ => some ["bug", "HARD", "easy"]) "o/r" 1 = 20 ∧
    get_points_from_pr_labels (fun _ _ => some ["Medium", "easy"]) "o/r" 1 = 10 ∧
    get_points_from_pr_labels (fun _ _ => some ["EaSy"]) "o/r" 1 = 5 ∧
    get_points_from_pr_labels (fun _ _ => some ["bug", "wontfix"]) "o/r" 1 = 0 := by
  refine ⟨?_, ?_, ?_, ?_, ?_, ?_⟩
  · exact (c5_label_points (fun _ _ => none) "o/r" 1 []).1 rfl
  · exact (c5_label_points (fun _ _ => some []) "o/r" 1 []).2.1 rfl
  · exact ((c5_label_points (fun _ _ => some ["bug", "HARD", "easy"]) "o/r" 1
      ["bug", "HARD", "easy"]).2.2 rfl).1 (by decide)
  · exact ((c5_label_points (fun _ _ => some ["Medium", "easy"]) "o/r" 1
      ["Medium", "easy"]).2.2 rfl).2.1 (by decide) (by decide)
  · exact ((c5_label_points (fun _ _ => some ["EaSy"]) "o/r" 1
      ["EaSy"]).2.2 rfl).2.2.1 (by decide) (by decide) (by decide)
  · exact ((c5_label_points (fun _ _ => some ["bug", "wontfix"]) "o/r" 1
      ["bug", "wontfix"]).2.2 rfl).2.2.2 (by decide) (by decide) (by decide)

end Bot

namespace Bot

/-- C6 amended: `update_score` itself applies `points_to_add`
unconditionally — inserting a fresh row when the contributor is absent and
adding to the stored total when present, with no `points <= 0` guard and no
return value.  The no-op for non-positive points holds only one level up:
`github_webhook` calls `update_score` solely when the computed points are
positive (bot.py line 198), so whenever the label computation yields no
positive points the scores table is unchanged and the request is still
answered 204. -/
theorem c6_points_guard_amended (scores : List ScoreRow) (r : Nat)
    (u : String) (p : Int) (payload : Payload) (rid : Nat) (rn : String)
    (fetch : String → Nat → Option (List String)) :
    (lookupScore scores r u = none →
      update_score scores r u p = scores ++ [⟨r, u, p⟩]) ∧
    (∀ v, lookupScore scores r u = some v →
      lookupScore (update_score scores r u p) r u = some (v + p)) ∧
    ((∀ m, get_points_from_pr_labels fetch rn m ≤ 0) →
      ∀ c scores',
        processPayload payload rid rn scores fetch = .resp c scores' →
        c = 204 ∧ scores' = scores) := by
  refine ⟨?_, ?_, ?_⟩
  · exact update_score_of_none scores r u p
  · intro v hv
    exact lookupScore_update_self scores r u p v hv
  · intro hle c scores' h
    rcases processPayload_resp payload rid rn scores fetch c scores' h with
      ⟨hc, heq | ⟨_, _, n, _, _, _, _, _, hpos, _⟩⟩
    · exact ⟨hc, heq⟩
    · exact absurd (lt_of_lt_of_le hpos (hle n)) (lt_irrefl 0)

/-- C6 witness: a non-positive award at the webhook level leaves the
ledger unchanged, and `update_score` applied directly inserts/adds. -/
theorem c6_points_guard_amended_witness :
    update_score [] 2 "bob" 7 = [⟨2, "bob", 7⟩] ∧
    lookupScore (update_score [⟨1, "alice", 10⟩] 1 "alice" (-5)) 1 "alice" =
      some 5 ∧
    (204 = 204 ∧
      ([] : List ScoreRow) = ([] : List ScoreRow)) := by
  refine ⟨?_, ?_, ?_⟩
  · exact (c6_points_guard_amended [] 2 "bob" 7 ⟨none, none⟩ 1 "o/r"
      (fun _ _ => none)).1 rfl
  · exact (c6_points_guard_amended [⟨1, "alice", 10⟩] 1 "alice" (-5)
      ⟨none, none⟩ 1 "o/r" (fun _ _ => none)).2.1 10 (by decide)
  · exact (c6_points_guard_amended [] 1 "alice" 0
      ⟨some "closed", some ⟨some true, some "alice", some 1, some "t",
        some "u", some "fixes #4"⟩⟩ 1 "o/r" (fun _ _ => none)).2.2
      (fun m => by rfl ) 204 [] (by decide)

/-- C8: a request whose `X-Hub-Signature-256` header is exactly
`sha256=` followed by the HMAC hex digest of the raw body under the
tenant's stored secret passes the signature gate (bot.py lines 171-178):
the handler proceeds to payload processing, and every response it then
produces has status 204 — never 400 or 403. -/
theorem c8_valid_signature_passes (hmacHex : String → String → String)
    (repos : List RepoRow) (scores : List ScoreRow) (rid : Nat)
    (secret rn : String) (ch : Nat) (body : String) (payload : Payload)
    (fetch : String → Nat → Option (List String))
    (h : lookupRepoById repos rid = some (secret, ch, rn)) :
    github_webhook hmacHex repos scores rid
      (some ("sha256=" ++ hmacHex secret body)) body payload fetch =
      processPayload payload rid rn scores fetch ∧
    ∀ c scores',
      github_webhook hmacHex repos scores rid
        (some ("sha256=" ++ hmacHex secret body)) body payload fetch =
        .resp c scores' → c = 204 := by
  have hsw : pyStartsWith ("sha256=" ++ hmacHex secret body) "sha256=" = true := by
    unfold pyStartsWith
    rw [List.isPrefixOf_iff_prefix]
    show "sha256=".data <+: ("sha256=" ++ hmacHex secret body).data
    rw [String.data_append]
    exact List.prefix_append _ _
  have hgw : github_webhook hmacHex repos scores rid
      (some ("sha256=" ++ hmacHex secret body)) body payload fetch =
      processPayload payload rid rn scores fetch := by
    simp only [github_webhook, h, hsw]
    simp only [if_true, if_pos rfl]
  refine ⟨hgw, ?_⟩
  intro c scores' hr
  rw [hgw] at hr
  exact (processPayload_resp payload rid rn scores fetch c scores' hr).1

/-- C8 witness: a concretely signed request reaches payload processing and
is answered 204. -/
theorem c8_valid_signature_passes_witness :
    github_webhook (fun s b => s ++ b) [⟨1, 10, "o/r", "sec", 5, 7⟩] [] 1
      (some ("sha256=" ++ ((fun s b => s ++ b) "sec" "raw"))) "raw"
      ⟨some "opened", none⟩ (fun _ _ => none) =
      processPayload ⟨some "opened", none⟩ 1 "o/r" [] (fun _ _ => none) :=
  (c8_valid_signature_passes (fun s b => s ++ b)
    [⟨1, 10, "o/r", "sec", 5, 7⟩] [] 1 "sec" "o/r" 5 "raw"
    ⟨some "opened", none⟩ (fun _ _ => none) (by decide)).1

end Bot

namespace Bot

/-- C9: along the only mutation path of this core — a webhook request that
reaches a response — the scores table stays non-negative, no stored total
ever decreases, and any change is exactly one `update_score` award whose
amount lies in {5, 10, 20} (the range of the label scorer, bot.py lines
80-83, filtered by the `points > 0` guard on line 198); registration and
the leaderboard query never write to `scores`. -/
theorem c9_scores_monotonic (hmacHex : String → String → String)
    (repos : List RepoRow) (scores : List ScoreRow) (rid : Nat)
    (sig : Option String) (body : String) (payload : Payload)
    (fetch : String → Nat → Option (List String))
    (hnn : ∀ row ∈ scores, 0 ≤ row.points) (c : Nat)
    (scores' : List ScoreRow)
    (h : github_webhook hmacHex repos scores rid sig body payload fetch =
      .resp c scores') :
    (∀ row ∈ scores', 0 ≤ row.points) ∧
    (∀ r u v, lookupScore scores r u = some v →
      ∃ v', lookupScore scores' r u = some v' ∧ v ≤ v') ∧
    (scores' = scores ∨ ∃ u p, (p = 5 ∨ p = 10 ∨ p = 20) ∧
      scores' = update_score scores rid u p) := by
  rcases github_webhook_resp hmacHex repos scores rid sig body payload fetch
      c scores' h with heq | ⟨secret, ch, rn, _, hp⟩
  · subst heq
    exact ⟨hnn, fun r u v hv => ⟨v, hv, le_refl v⟩, Or.inl rfl⟩
  · rcases processPayload_resp payload rid rn scores fetch c scores' hp with
      ⟨_, heq | ⟨pr, u, n, _, _, _, _, _, hpos, heq⟩⟩
    · subst heq
      exact ⟨hnn, fun r u v hv => ⟨v, hv, le_refl v⟩, Or.inl rfl⟩
    · have hrange : get_points_from_pr_labels fetch rn n = 5 ∨
          get_points_from_pr_labels fetch rn n = 10 ∨
          get_points_from_pr_labels fetch rn n = 20 := by
        rcases get_points_range fetch rn n with h0 | h5 | h10 | h20
        · rw [h0] at hpos
          exact absurd hpos (lt_irrefl 0)
        · exact Or.inl h5
        · exact Or.inr (Or.inl h10)
        · exact Or.inr (Or.inr h20)
      subst heq
      refine ⟨?_, ?_, Or.inr ⟨u, get_points_from_pr_labels fetch rn n,
        hrange, rfl⟩⟩
      · intro row' hrow'
        rcases mem_update_score scores rid u _ row' hrow' with
          hmem | hnew | ⟨row, hrow, v, hv, heq2⟩
        · exact hnn row' hmem
        · rw [hnew]
          exact le_of_lt hpos
        · rw [heq2]
          have hv0 : 0 ≤ v := by
            rcases lookupScore_mem scores rid u v hv with ⟨row₂, hrow₂, hpts⟩
            rw [← hpts]
            exact hnn row₂ hrow₂
          exact add_nonneg hv0 (le_of_lt hpos)
      · intro r uq v hv
        by_cases hk : r = rid ∧ uq = u
        · rcases hk with ⟨h1, h2⟩
          subst h1
          subst h2
          refine ⟨v + get_points_from_pr_labels fetch rn n, ?_, ?_⟩
          · exact lookupScore_update_self scores r uq _ v hv
          · exact le_add_of_nonneg_right (le_of_lt hpos)
        · refine ⟨v, ?_, le_refl v⟩
          rw [lookupScore_update_other scores rid u _ r uq hk]
          exact hv

/-- C9 witness: a concrete awarding request raises alice's stored 5 to a
total of at least 5, never decreasing it. -/
theorem c9_scores_monotonic_witness :
    ∃ v', lookupScore [⟨1, "alice", 25⟩] 1 "alice" = some v' ∧
      (5 : Int) ≤ v' :=
  (c9_scores_monotonic (fun s b => s ++ b) [⟨1, 10, "o/r", "sec", 5, 7⟩]
    [⟨1, "alice", 5⟩] 1 (some "sha256=secraw") "raw"
    ⟨some "closed", some ⟨some true, some "alice", some 3, some "t",
      some "u", some "fixes #4"⟩⟩
    (fun _ m => if m = 4 then some ["HARD", "bug"] else none)
    (by decide) 204 [⟨1, "alice", 25⟩] (by decide)).2.1 1 "alice" 5
    (by decide)

end Bot

namespace Bot

theorem pyStartsWith_append_self (p x : String) :
    pyStartsWith (p ++ x) p = true := by
  unfold pyStartsWith
  rw [List.isPrefixOf_iff_prefix]
  show p.data <+: (p ++ x).data
  rw [String.data_append]
  exact List.prefix_append _ _

theorem string_append_left_cancel {p a b : String} (h : p ++ a = p ++ b) :
    a = b := by
  have hd := congrArg String.data h
  rw [String.data_append, String.data_append] at hd
  exact String.ext (List.append_cancel_left hd)

/-- C7: registering the same community twice (bot.py lines 93-111) stores
the token generated for each call: after the second call the stored secret
is the second token, the tenant row's surrogate id is unchanged (the
`ON CONFLICT (guild_id) DO UPDATE ... RETURNING id` upsert preserves it),
the two returned secrets differ whenever the two generated tokens differ,
and a webhook signed with the first secret is rejected 403 once the digests
under the two secrets differ. -/
theorem c7_reregistration_rotates_secret (hmacHex : String → String → String)
    (repos : List RepoRow) (scores : List ScoreRow) (g fresh fresh2 : Nat)
    (rn1 rn2 s1 s2 : String) (ch1 ch2 ad1 ad2 : Nat) (body : String)
    (payload : Payload) (fetch : String → Nat → Option (List String))
    (hno : repos.find? (fun x => x.guild_id == g) = none)
    (hfresh : ∀ x ∈ repos, x.id ≠ fresh)
    (hss : s1 ≠ s2)
    (hdiff : hmacHex s1 body ≠ hmacHex s2 body) :
    (registerUpsert repos g rn1 s1 ch1 ad1 fresh).2 = fresh ∧
    (registerUpsert (registerUpsert repos g rn1 s1 ch1 ad1 fresh).1
        g rn2 s2 ch2 ad2 fresh2).2 = fresh ∧
    lookupRepoById (registerUpsert repos g rn1 s1 ch1 ad1 fresh).1 fresh =
      some (s1, ch1, rn1) ∧
    lookupRepoById (registerUpsert (registerUpsert repos g rn1 s1 ch1 ad1
        fresh).1 g rn2 s2 ch2 ad2 fresh2).1 fresh = some (s2, ch2, rn2) ∧
    s2 ≠ s1 ∧
    github_webhook hmacHex
      (registerUpsert (registerUpsert repos g rn1 s1 ch1 ad1 fresh).1
        g rn2 s2 ch2 ad2 fresh2).1 scores fresh
      (some ("sha256=" ++ hmacHex s1 body)) body payload fetch =
      .resp 403 scores := by
  have e1 : registerUpsert repos g rn1 s1 ch1 ad1 fresh =
      (repos ++ [⟨fresh, g, rn1, s1, ch1, ad1⟩], fresh) := by
    unfold registerUpsert
    rw [hno]
  have hgall : ∀ x ∈ repos, (x.guild_id == g) = false := by
    intro x hx
    have := List.find?_eq_none.mp hno x hx
    exact Bool.not_eq_true _ ▸ (Bool.of_not_eq_true this)
  have hidnone : repos.find? (fun x => x.id == fresh) = none := by
    rw [List.find?_eq_none]
    intro x hx
    simp only [beq_iff_eq]
    exact fun hh => hfresh x hx hh
  have hfind1 : (repos ++ [(⟨fresh, g, rn1, s1, ch1, ad1⟩ : RepoRow)]).find?
      (fun x => x.guild_id == g) = some ⟨fresh, g, rn1, s1, ch1, ad1⟩ := by
    rw [find?_append_of_none _ _ _ hno]
    exact List.find?_cons_of_pos _ (by simp)
  have e2 : registerUpsert (repos ++ [⟨fresh, g, rn1, s1, ch1, ad1⟩])
      g rn2 s2 ch2 ad2 fresh2 =
      (repos ++ [⟨fresh, g, rn2, s2, ch2, ad2⟩], fresh) := by
    unfold registerUpsert
    rw [hfind1]
    refine congrArg (fun l => (l, fresh)) ?_
    rw [List.map_append]
    have hmap : repos.map (fun x =>
        if x.guild_id == g then
          { x with repo_name := rn2, webhook_secret := s2,
                   channel_id := ch2, admin_user_id := ad2 }
        else x) = repos := by
      have hcongr := List.map_congr_left (l := repos)
        (f := fun x : RepoRow =>
          if x.guild_id == g then
            { x with repo_name := rn2, webhook_secret := s2,
                     channel_id := ch2, admin_user_id := ad2 }
          else x)
        (g := id) (fun x hx => by
          dsimp only
          rw [if_neg (by rw [hgall x hx]; exact Bool.false_ne_true)]
          rfl)
      rw [hcongr, List.map_id]
    rw [hmap]
    refine congrArg (fun y => repos ++ [y]) ?_
    dsimp only
    rw [if_pos (by simp)]
  have hlook1 : lookupRepoById
      (repos ++ [(⟨fresh, g, rn1, s1, ch1, ad1⟩ : RepoRow)]) fresh =
      some (s1, ch1, rn1) := by
    unfold lookupRepoById
    rw [find?_append_of_none _ _ _ hidnone,
      List.find?_cons_of_pos _ (by simp)]
    rfl
  have hlook2 : lookupRepoById
      (repos ++ [(⟨fresh, g, rn2, s2, ch2, ad2⟩ : RepoRow)]) fresh =
      some (s2, ch2, rn2) := by
    unfold lookupRepoById
    rw [find?_append_of_none _ _ _ hidnone,
      List.find?_cons_of_pos _ (by simp)]
    rfl
  refine ⟨by rw [e1], by rw [e1, e2], by rw [e1]; exact hlook1,
    by rw [e1, e2]; exact hlook2, fun hh => hss hh.symm, ?_⟩
  rw [e1, e2]
  simp only [github_webhook, hlook2]
  rw [if_pos (pyStartsWith_append_self "sha256=" (hmacHex s1 body))]
  rw [if_neg (fun heq =>
    hdiff (string_append_left_cancel heq).symm)]

/-- C7 witness: two concrete registrations for guild 10 with tokens "a"
then "b" keep id 1, store "b", and reject a request signed with "a". -/
theorem c7_reregistration_rotates_secret_witness :
    lookupRepoById (registerUpsert (registerUpsert [] 10 "o/r" "a" 5 7 1).1
      10 "o/r2" "b" 6 8 2).1 1 = some ("b", 6, "o/r2") ∧
    github_webhook (fun s b => s ++ b)
      (registerUpsert (registerUpsert [] 10 "o/r" "a" 5 7 1).1
        10 "o/r2" "b" 6 8 2).1 [] 1
      (some ("sha256=" ++ ((fun s b => s ++ b) "a" "m"))) "m" ⟨none, none⟩
      (fun _ _ => none) = .resp 403 [] := by
  have h := c7_reregistration_rotates_secret (fun s b => s ++ b) [] [] 10 1 2
    "o/r" "o/r2" "a" "b" 5 6 7 8 "m" ⟨none, none⟩ (fun _ _ => none)
    rfl (fun x hx => absurd hx (List.not_mem_nil x)) (by decide) (by decide)
  exact ⟨h.2.2.2.1, h.2.2.2.2.2⟩

end Bot

namespace Bot

/-- C4 amended: on a qualifying merged payload the description is scanned
for a case-insensitive closing keyword from the fixed synonym set followed
by exactly one whitespace character and then `#<digits>` (the regex on
bot.py line 190 puts `\s` between the keyword and `#`); the leftmost
match's digit run becomes the linked issue number, and when no match
exists the handler answers 204 with the scores unchanged rather than an
error.  A keyword immediately followed by `#<digits>` with no whitespace,
or with two whitespace characters, does not match. -/
theorem c4_keyword_scan_amended (rid : Nat) (rn : String)
    (scores : List ScoreRow) (fetch : String → Nat → Option (List String)) :
    findIssueNumber "close #1".toList = some 1 ∧
    findIssueNumber "closes #2".toList = some 2 ∧
    findIssueNumber "closed #3".toList = some 3 ∧
    findIssueNumber "fix #4".toList = some 4 ∧
    findIssueNumber "fixes #5".toList = some 5 ∧
    findIssueNumber "fixed #6".toList = some 6 ∧
    findIssueNumber "resolve #7".toList = some 7 ∧
    findIssueNumber "resolves #8".toList = some 8 ∧
    findIssueNumber "resolved #9".toList = some 9 ∧
    findIssueNumber "This PR Closes\t#42 today".toList = some 42 ∧
    findIssueNumber "fixes #12 and closes #34".toList = some 12 ∧
    findIssueNumber "fixes #123abc".toList = some 123 ∧
    findIssueNumber "fixes#42".toList = none ∧
    findIssueNumber "fixes  #42".toList = none ∧
    findIssueNumber "fixes #".toList = none ∧
    (∀ u nnum ti url ob,
      findIssueNumber ((ob.getD "") : String).toList = none →
      processPayload ⟨some "closed", some ⟨some true, some u, some nnum,
        some ti, some url, ob⟩⟩ rid rn scores fetch = .resp 204 scores) := by
  refine ⟨by decide, by decide, by decide, by decide, by decide, by decide,
    by decide, by decide, by decide, by decide, by decide, by decide,
    by decide, by decide, by decide, ?_⟩
  intro u nnum ti url ob h
  have h2 : findIssueNumber ((ob.getD "") : String).data = none := h
  simp [processPayload, h2]

/-- C4 amended witness: a merged payload whose description has no
keyword-whitespace-#digits match is acknowledged 204 with the ledger
untouched. -/
theorem c4_keyword_scan_amended_witness :
    processPayload ⟨some "closed", some ⟨some true, some "alice", some 1,
      some "t", some "u", some "no linked issue here"⟩⟩ 1 "o/r"
      [⟨1, "zoe", 3⟩] (fun _ _ => some ["hard"]) = .resp 204 [⟨1, "zoe", 3⟩] :=
  (c4_keyword_scan_amended 1 "o/r" [⟨1, "zoe", 3⟩]
    (fun _ _ => some ["hard"])).2.2.2.2.2.2.2.2.2.2.2.2.2.2.2
    "alice" 1 "t" "u" (some "no linked issue here") (by decide)

end Bot
